import Mathlib

/-!
Shallow embedding of `src/chemprop/uncertainty/uncertainty_calibrator.py`.

Matrices of shape (N examples, T tasks) are embedded as lists of rows of
reals.  The scipy numerical routines the source calls (`fmin`, `erfinv`,
`t.pdf`, `t.ppf`) are external library functions: they are modelled by an
abstract `NumericOracle`, except for the structural contract of
`scipy.optimize.fmin` (its Nelder-Mead simplex stores each objective value
in a scalar slot, so a vector-valued objective of length other than one
raises a ValueError at the very first evaluation), which is modelled
explicitly, and `numpy.percentile` (default linear interpolation), which is
implemented faithfully.
-/

noncomputable section

/-- A real matrix stored as a list of rows, mirroring a numpy (N, T) array. -/
abbrev Mat := List (List ℝ)

/-- Elementwise binary operation on two matrices (numpy broadcasting of two
arrays of identical shape). -/
def matZip (f : ℝ → ℝ → ℝ) (a b : Mat) : Mat :=
  List.zipWith (List.zipWith f) a b

/-- Elementwise unary operation on a matrix. -/
def matMap (f : ℝ → ℝ) (a : Mat) : Mat :=
  a.map (fun r => r.map f)

/-- Three-list pointwise zip, used where a per-task vector broadcasts against
rows of per-example matrices. -/
def zipWith3 (f : ℝ → ℝ → ℝ → ℝ) : List ℝ → List ℝ → List ℝ → List ℝ
  | a :: as, b :: bs, c :: cs => f a b c :: zipWith3 f as bs cs
  | _, _, _ => []

/-- `numpy.sum(m, axis=0)`: sum a (N, T) matrix over the example axis,
yielding a length-T vector. -/
def axisSum0 : Mat → List ℝ
  | [] => []
  | [r] => r
  | r :: rs => List.zipWith (fun x y => x + y) r (axisSum0 rs)

/-- Transpose of a rectangular matrix: the list of its T columns. -/
def transposeMat : Mat → Mat
  | [] => []
  | [r] => r.map (fun x => [x])
  | r :: rs => List.zipWith (fun x col => x :: col) r (transposeMat rs)

/-- Column `t` of a matrix (entries of each row at index `t`). -/
def column (m : Mat) (t : ℕ) : List ℝ :=
  m.map (fun r => r.getD t 0)

/-- Arithmetic mean of a list, `numpy.mean`. -/
def listMean (xs : List ℝ) : ℝ :=
  xs.sum / xs.length

/-- Population standard deviation of a list, `numpy.std` (ddof = 0). -/
def listStd (xs : List ℝ) : ℝ :=
  Real.sqrt ((xs.map (fun x => (x - listMean xs) ^ 2)).sum / xs.length)

/-- `numpy.std(m, axis=0)`: the per-task standard deviations. -/
def npStdAxis0 (m : Mat) : List ℝ :=
  (transposeMat m).map listStd

/-- `numpy.percentile(xs, q)` with the default linear interpolation method:
sort, take the virtual index `q/100 * (n-1)`, and interpolate linearly
between the two neighbouring order statistics. -/
def npPercentile (xs : List ℝ) (q : ℝ) : ℝ :=
  let sorted := List.insertionSort (fun a b => a ≤ b) xs
  let h : ℝ := q / 100 * ((xs.length : ℝ) - 1)
  let lo := sorted.getD (Int.toNat ⌊h⌋) 0
  let hi := sorted.getD (Int.toNat ⌊h⌋ + 1) lo
  lo + Int.fract h * (hi - lo)

/-- The external scipy numerics consumed by the calibrators.  `fminSol`
gives the point `scipy.optimize.fmin` would return for a given objective
and initial guess (the optimizer guarantees nothing about this point beyond
its existence); `erfinv`, `tPdf x df scale` and `tPpf q df` model
`scipy.special.erfinv`, `scipy.stats.t.pdf` and `scipy.stats.t.ppf`. -/
structure NumericOracle where
  fminSol : (List ℝ → List ℝ) → List ℝ → List ℝ
  erfinv : ℝ → ℝ
  tPdf : ℝ → ℝ → ℝ → ℝ
  tPpf : ℝ → ℝ → ℝ

/-- `scipy.optimize.fmin(objective, x0)`.  Nelder-Mead assigns
`fsim[0] = func(x0)` into a scalar slot: an objective value that is an
array of length other than one raises
`ValueError: setting an array element with a sequence` before any
optimization step.  A length-one array is accepted (converted to its single
entry), and the optimizer then returns some point of the search space. -/
def fminRun (Ω : NumericOracle) (objective : List ℝ → List ℝ) (x0 : List ℝ) :
    Except String (List ℝ) :=
  if (objective x0).length = 1 then
    Except.ok (Ω.fminSol objective x0)
  else
    Except.error "ValueError: setting an array element with a sequence"

/-- The calibration dataset, exposing its ground-truth target matrix. -/
structure MoleculeDataset where
  targets : Mat

/-- An uncertainty predictor over some dataset: per-example, per-task point
predictions and raw variances. -/
structure UncertaintyPredictor where
  get_uncal_preds : Mat
  get_uncal_vars : Mat

/-- Configuration stored by `UncertaintyCalibrator.__init__` (the fields the
calibration computations read; `num_models` is `len(models)`). -/
structure CalibratorConfig where
  uncertainty_method : String
  interval_percentile : ℕ
  regression_calibrator_metric : String
  dataset_type : String
  num_models : ℕ

end

noncomputable section

namespace ZScalingCalibrator

/-- The per-task negative log likelihood `objective(scaler_values)` of
`ZScalingCalibrator.calibrate`: `scaled_vars = uncal_vars * scaler_values**2`,
`nll = log(2*pi*scaled_vars)/2 + errors**2 / (2*scaled_vars)`, summed over
the example axis. -/
def objective (errors uncal_vars : Mat) (scaler_values : List ℝ) : List ℝ :=
  axisSum0 (List.zipWith (fun erow vrow =>
    zipWith3 (fun e v s =>
      Real.log (2 * Real.pi * (v * s ^ 2)) / 2 + e ^ 2 / (2 * (v * s ^ 2)))
      erow vrow scaler_values) errors uncal_vars)

/-- `ZScalingCalibrator.calibrate`: z-scores initialize fmin on the per-task
Gaussian NLL; `stdev_scaling = sol[0]`; the `interval` metric multiplies by
`erfinv(interval_percentile/100) * sqrt(2)`. -/
def calibrate (Ω : NumericOracle) (cfg : CalibratorConfig)
    (predictor : UncertaintyPredictor) (targets : Mat) : Except String ℝ :=
  let uncal_preds := predictor.get_uncal_preds
  let uncal_vars := predictor.get_uncal_vars
  let errors := matZip (fun p t => p - t) uncal_preds targets
  let zscore_preds := matZip (fun e v => e / Real.sqrt v) errors uncal_vars
  let initial_guess := npStdAxis0 zscore_preds
  match fminRun Ω (objective errors uncal_vars) initial_guess with
  | Except.error e => Except.error e
  | Except.ok sol =>
    let stdev_scaling := sol.headI
    if cfg.regression_calibrator_metric = "stdev" then
      Except.ok stdev_scaling
    else
      Except.ok (stdev_scaling * Ω.erfinv ((cfg.interval_percentile : ℝ) / 100) * Real.sqrt 2)

end ZScalingCalibrator

/-- The fitted state of a `ZScalingCalibrator`: the scaling stored by
`calibrate` is the single real `sol[0]` (possibly quantile-adjusted), and
the label is set after fitting. -/
structure ZScalingCalibrator where
  regression_calibrator_metric : String
  interval_percentile : ℕ
  num_models : ℕ
  scaling : ℝ
  label : String

namespace ZScalingCalibrator

/-- `ZScalingCalibrator.raise_argument_errors`. -/
def raise_argument_errors (cfg : CalibratorConfig) : Except String Unit :=
  if cfg.dataset_type ≠ "regression" then
    Except.error "Z Score Scaling is only compatible with regression datasets."
  else
    Except.ok ()

/-- `ZScalingCalibrator.__init__` via `UncertaintyCalibrator.__init__`:
store configuration, validate, build the calibration predictor, fit, then
set the label. -/
def init (Ω : NumericOracle) (cfg : CalibratorConfig)
    (calibration_data : MoleculeDataset)
    (buildPredictor : Unit → UncertaintyPredictor) :
    Except String ZScalingCalibrator :=
  match raise_argument_errors cfg with
  | Except.error e => Except.error e
  | Except.ok _ =>
    let calibration_predictor := buildPredictor ()
    match calibrate Ω cfg calibration_predictor calibration_data.targets with
    | Except.error e => Except.error e
    | Except.ok scaling =>
      Except.ok
        { regression_calibrator_metric := cfg.regression_calibrator_metric
          interval_percentile := cfg.interval_percentile
          num_models := cfg.num_models
          scaling := scaling
          label :=
            if cfg.regression_calibrator_metric = "stdev" then
              cfg.uncertainty_method ++ "_zscaling_stdev"
            else
              cfg.uncertainty_method ++ "_zscaling_" ++
                toString cfg.interval_percentile ++ "interval" }

/-- `ZScalingCalibrator.apply_calibration`, with the method's state passed
explicitly: the returned calibrator is the post-state of the call. -/
def apply_calibration (c : ZScalingCalibrator)
    (uncal_predictor : UncertaintyPredictor) :
    (Mat × Mat) × ZScalingCalibrator :=
  let uncal_preds := uncal_predictor.get_uncal_preds
  let uncal_vars := uncal_predictor.get_uncal_vars
  let cal_stdev := matMap (fun v => Real.sqrt v * c.scaling) uncal_vars
  ((uncal_preds, cal_stdev), c)

end ZScalingCalibrator

namespace TScalingCalibrator

/-- The per-task negative log likelihood `objective(scaler_values)` of
`TScalingCalibrator.calibrate`, built from the Student-t pdf with
`df = num_models - 1` and scale `std_error_of_mean * scaler_values`. -/
def objective (Ω : NumericOracle) (num_models : ℕ)
    (errors std_error_of_mean : Mat) (scaler_values : List ℝ) : List ℝ :=
  axisSum0 (List.zipWith (fun erow serow =>
    zipWith3 (fun e se s =>
      -1 * Real.log (Ω.tPdf e ((num_models : ℝ) - 1) (se * s)))
      erow serow scaler_values) errors std_error_of_mean)

/-- `TScalingCalibrator.calibrate`: standard error of the mean is
`sqrt(uncal_vars / (num_models - 1))`; fmin on the Student-t NLL;
`stdev_scaling = sol[0]`; the `interval` metric multiplies by
`t.ppf((interval_percentile/100 + 1)/2, df = num_models - 1)`. -/
def calibrate (Ω : NumericOracle) (cfg : CalibratorConfig)
    (predictor : UncertaintyPredictor) (targets : Mat) : Except String ℝ :=
  let uncal_preds := predictor.get_uncal_preds
  let uncal_vars := predictor.get_uncal_vars
  let std_error_of_mean :=
    matMap (fun v => Real.sqrt (v / ((cfg.num_models : ℝ) - 1))) uncal_vars
  let errors := matZip (fun p t => p - t) uncal_preds targets
  let tscore_preds := matZip (fun e se => e / se) errors std_error_of_mean
  let initial_guess := npStdAxis0 tscore_preds
  match fminRun Ω (objective Ω cfg.num_models errors std_error_of_mean) initial_guess with
  | Except.error e => Except.error e
  | Except.ok sol =>
    let stdev_scaling := sol.headI
    if cfg.regression_calibrator_metric = "stdev" then
      Except.ok stdev_scaling
    else
      Except.ok (stdev_scaling *
        Ω.tPpf (((cfg.interval_percentile : ℝ) / 100 + 1) / 2) ((cfg.num_models : ℝ) - 1))

end TScalingCalibrator

/-- The fitted state of a `TScalingCalibrator`; as for Z-scaling, the stored
scaling is the single real `sol[0]` (possibly quantile-adjusted). -/
structure TScalingCalibrator where
  regression_calibrator_metric : String
  interval_percentile : ℕ
  num_models : ℕ
  scaling : ℝ
  label : String

namespace TScalingCalibrator

/-- `TScalingCalibrator.raise_argument_errors`: the only check performed is
the dataset-type check; `num_models` is not examined. -/
def raise_argument_errors (cfg : CalibratorConfig) : Except String Unit :=
  if cfg.dataset_type ≠ "regression" then
    Except.error "T Score Scaling is only compatible with regression datasets."
  else
    Except.ok ()

/-- `TScalingCalibrator.__init__` via `UncertaintyCalibrator.__init__`. -/
def init (Ω : NumericOracle) (cfg : CalibratorConfig)
    (calibration_data : MoleculeDataset)
    (buildPredictor : Unit → UncertaintyPredictor) :
    Except String TScalingCalibrator :=
  match raise_argument_errors cfg with
  | Except.error e => Except.error e
  | Except.ok _ =>
    let calibration_predictor := buildPredictor ()
    match calibrate Ω cfg calibration_predictor calibration_data.targets with
    | Except.error e => Except.error e
    | Except.ok scaling =>
      Except.ok
        { regression_calibrator_metric := cfg.regression_calibrator_metric
          interval_percentile := cfg.interval_percentile
          num_models := cfg.num_models
          scaling := scaling
          label :=
            if cfg.regression_calibrator_metric = "stdev" then
              cfg.uncertainty_method ++ "_tscaling_stdev"
            else
              cfg.uncertainty_method ++ "_tscaling_" ++
                toString cfg.interval_percentile ++ "interval" }

/-- `TScalingCalibrator.apply_calibration`:
`cal_stdev = sqrt(uncal_vars / (num_models - 1)) * scaling`. -/
def apply_calibration (c : TScalingCalibrator)
    (uncal_predictor : UncertaintyPredictor) :
    (Mat × Mat) × TScalingCalibrator :=
  let uncal_preds := uncal_predictor.get_uncal_preds
  let uncal_vars := uncal_predictor.get_uncal_vars
  let cal_stdev :=
    matMap (fun v => Real.sqrt (v / ((c.num_models : ℝ) - 1)) * c.scaling) uncal_vars
  ((uncal_preds, cal_stdev), c)

end TScalingCalibrator

namespace ZelikmanCalibrator

/-- `ZelikmanCalibrator.calibrate`: the per-task `interval_percentile`-th
percentile, over the calibration examples, of
`abs(uncal_preds - targets) / sqrt(uncal_vars)` (keepdims gives one row of
T values, embedded as the list of per-task percentiles).  The
`regression_calibrator_metric` field of the configuration is never read. -/
def calibrate (cfg : CalibratorConfig) (predictor : UncertaintyPredictor)
    (targets : Mat) : Except String (List ℝ) :=
  let uncal_preds := predictor.get_uncal_preds
  let uncal_vars := predictor.get_uncal_vars
  let abs_zscore_preds :=
    matZip (fun d v => |d| / Real.sqrt v)
      (matZip (fun p t => p - t) uncal_preds targets) uncal_vars
  let interval_scaling :=
    (transposeMat abs_zscore_preds).map
      (fun xs => npPercentile xs (cfg.interval_percentile : ℝ))
  Except.ok interval_scaling

end ZelikmanCalibrator

/-- The fitted state of a `ZelikmanCalibrator`: the scaling is the
keepdims row of per-task percentiles (T entries). -/
structure ZelikmanCalibrator where
  regression_calibrator_metric : String
  interval_percentile : ℕ
  num_models : ℕ
  scaling : List ℝ
  label : String

namespace ZelikmanCalibrator

/-- `ZelikmanCalibrator.raise_argument_errors`. -/
def raise_argument_errors (cfg : CalibratorConfig) : Except String Unit :=
  if cfg.dataset_type ≠ "regression" then
    Except.error "Crude Scaling is only compatible with regression datasets."
  else
    Except.ok ()

/-- `ZelikmanCalibrator.__init__` via `UncertaintyCalibrator.__init__`; the
label always embeds the percentile. -/
def init (cfg : CalibratorConfig) (calibration_data : MoleculeDataset)
    (buildPredictor : Unit → UncertaintyPredictor) :
    Except String ZelikmanCalibrator :=
  match raise_argument_errors cfg with
  | Except.error e => Except.error e
  | Except.ok _ =>
    let calibration_predictor := buildPredictor ()
    match calibrate cfg calibration_predictor calibration_data.targets with
    | Except.error e => Except.error e
    | Except.ok scaling =>
      Except.ok
        { regression_calibrator_metric := cfg.regression_calibrator_metric
          interval_percentile := cfg.interval_percentile
          num_models := cfg.num_models
          scaling := scaling
          label := cfg.uncertainty_method ++ "_zelikman_" ++
            toString cfg.interval_percentile ++ "interval" }

/-- `ZelikmanCalibrator.apply_calibration`: the stored row of per-task
scalings broadcasts over the rows of `sqrt(uncal_vars)`. -/
def apply_calibration (c : ZelikmanCalibrator)
    (uncal_predictor : UncertaintyPredictor) :
    (Mat × Mat) × ZelikmanCalibrator :=
  let uncal_preds := uncal_predictor.get_uncal_preds
  let uncal_vars := uncal_predictor.get_uncal_vars
  let cal_stdev :=
    uncal_vars.map (fun row =>
      List.zipWith (fun v s => Real.sqrt v * s) row c.scaling)
  ((uncal_preds, cal_stdev), c)

end ZelikmanCalibrator

/-- The result of `uncertainty_calibrator_builder`: one of the three
strategies, fully fitted. -/
inductive BuiltCalibrator where
  | zscaling : ZScalingCalibrator → BuiltCalibrator
  | tscaling : TScalingCalibrator → BuiltCalibrator
  | zelikman : ZelikmanCalibrator → BuiltCalibrator

/-- Python string interpolation of an optional string: `f"{None}"` prints
`None`. -/
def pyShowOpt : Option String → String
  | none => "None"
  | some s => s

/-- The `NotImplementedError` message produced by
`uncertainty_calibrator_builder` for an unsupported calibration method
(`supported_calibrators.keys()` interpolates as a `dict_keys` view). -/
def unsupportedCalibratorMsg (calibration_method : Option String) : String :=
  "Calibrator type " ++ pyShowOpt calibration_method ++
    " is not currently supported. Avalable options are: dict_keys([\x27zscaling\x27, \x27tscaling\x27, \x27zelikman_interval\x27])"

/-- `uncertainty_calibrator_builder`: resolve the default method (only for
regression dataset types), look the method up in `supported_calibrators`,
raise `NotImplementedError` on a failed lookup, and otherwise construct the
fitted calibrator. -/
def uncertainty_calibrator_builder (Ω : NumericOracle)
    (calibration_method : Option String)
    (uncertainty_method : String) (regression_calibrator_metric : String)
    (interval_percentile : ℕ) (dataset_type : String) (num_models : ℕ)
    (calibration_data : MoleculeDataset)
    (buildPredictor : Unit → UncertaintyPredictor) :
    Except String BuiltCalibrator :=
  let method : Option String :=
    match calibration_method with
    | none =>
      if dataset_type = "regression" then
        if regression_calibrator_metric = "stdev" then some "zscaling"
        else some "zelikman_interval"
      else none
    | some m => some m
  let cfg : CalibratorConfig :=
    { uncertainty_method := uncertainty_method
      interval_percentile := interval_percentile
      regression_calibrator_metric := regression_calibrator_metric
      dataset_type := dataset_type
      num_models := num_models }
  match method with
  | none => Except.error (unsupportedCalibratorMsg none)
  | some m =>
    if m = "zscaling" then
      (ZScalingCalibrator.init Ω cfg calibration_data buildPredictor).map .zscaling
    else if m = "tscaling" then
      (TScalingCalibrator.init Ω cfg calibration_data buildPredictor).map .tscaling
    else if m = "zelikman_interval" then
      (ZelikmanCalibrator.init cfg calibration_data buildPredictor).map .zelikman
    else
      Except.error (unsupportedCalibratorMsg (some m))

/-- All entries of a matrix are nonnegative. -/
def MatEntriesNonneg (m : Mat) : Prop :=
  ∀ row ∈ m, ∀ x ∈ row, 0 ≤ x

/-- `sub` occurs contiguously inside `s`. -/
def HasSubstring (s sub : String) : Prop :=
  ∃ s1 s2, s = s1 ++ sub ++ s2

/-- The same evaluation predictor with every raw variance multiplied by `k`. -/
def UncertaintyPredictor.scaleVars (k : ℝ) (p : UncertaintyPredictor) :
    UncertaintyPredictor :=
  { p with get_uncal_vars := matMap (fun v => k * v) p.get_uncal_vars }

/-- An oracle whose optimizer returns the empty point: used where only the
structure of the computation (not the optimum) matters. -/
def trivialOracle : NumericOracle :=
  ⟨fun _ _ => [], fun _ => 0, fun _ _ _ => 0, fun _ _ => 0⟩

/-- An oracle whose optimizer returns the point `[-1]`.  For the Gaussian
NLL objective this is as good an answer as `[1]`: the objective depends on
the scale only through its square. -/
def negOracle : NumericOracle :=
  ⟨fun _ _ => [-1], fun _ => 0, fun _ _ _ => 0, fun _ _ => 0⟩

/-- A regression configuration in `stdev` metric mode with a 3-model
ensemble. -/
def regressionStdevCfg : CalibratorConfig :=
  ⟨"ensemble", 95, "stdev", "regression", 3⟩

/-- A classification configuration. -/
def classificationCfg : CalibratorConfig :=
  ⟨"ensemble", 95, "stdev", "classification", 3⟩

/-- A regression configuration with a single-model ensemble. -/
def singleModelCfg : CalibratorConfig :=
  ⟨"ensemble", 95, "stdev", "regression", 1⟩

/-- Two-task (T = 2) calibration targets. -/
def twoTaskTargets : MoleculeDataset := ⟨[[0, 0], [0, 0]]⟩

/-- Two-task (T = 2) calibration predictions and variances. -/
def twoTaskPredictor : UncertaintyPredictor := ⟨[[1, 3], [2, 5]], [[1, 1], [1, 1]]⟩

/-- One-task calibration targets, two examples. -/
def oneTaskTargets : MoleculeDataset := ⟨[[0], [0]]⟩

/-- One-task calibration predictions (errors 1 and -1) and unit variances. -/
def oneTaskPredictor : UncertaintyPredictor := ⟨[[1], [-1]], [[1], [1]]⟩

/-- One-task calibration targets with a single example. -/
def singleRowTargets : MoleculeDataset := ⟨[[0]]⟩

/-- One-task calibration predictions and variances with a single example. -/
def singleRowPredictor : UncertaintyPredictor := ⟨[[1]], [[1]]⟩

/-- A one-example, one-task evaluation predictor with unit variance. -/
def evalPredictorOne : UncertaintyPredictor := ⟨[[0]], [[1]]⟩

/-- The Z-scaling calibrator state fit by `negOracle` on the one-task data:
its stored scaling is the optimizer output `-1`. -/
def negFitted : ZScalingCalibrator := ⟨"stdev", 95, 3, -1, "ensemble_zscaling_stdev"⟩

/-- A fitted Z-scaling calibrator with scaling 1. -/
def zFittedOne : ZScalingCalibrator := ⟨"stdev", 95, 3, 1, "ensemble_zscaling_stdev"⟩

/-- A fitted T-scaling calibrator with scaling 1. -/
def tFittedOne : TScalingCalibrator := ⟨"stdev", 95, 3, 1, "ensemble_tscaling_stdev"⟩

/-- A fitted Zelikman calibrator with per-task scaling row `[1]`. -/
def zelFittedOne : ZelikmanCalibrator := ⟨"stdev", 95, 3, [1], "ensemble_zelikman_95interval"⟩

/-- An oracle whose optimizer returns the point `[2]`. -/
def twoOracle : NumericOracle :=
  ⟨fun _ _ => [2], fun _ => 0, fun _ _ _ => 0, fun _ _ => 0⟩

end

noncomputable section

theorem matMap_matMap (f g : ℝ → ℝ) (m : Mat) :
    matMap f (matMap g m) = matMap (fun v => f (g v)) m := by
  simp [matMap, List.map_map, Function.comp]

/-- C7: `apply_calibration` of each of the three strategies returns the
evaluation predictor's point predictions unchanged as the first component
of its result and leaves the calibrator state unchanged, so a repeated
call with the same argument returns the same result. -/
theorem apply_calibration_preserves_preds_and_state (cz : ZScalingCalibrator)
    (ct : TScalingCalibrator) (ce : ZelikmanCalibrator) (p : UncertaintyPredictor) :
    ((cz.apply_calibration p).1.1 = p.get_uncal_preds ∧ (cz.apply_calibration p).2 = cz ∧
      ((cz.apply_calibration p).2).apply_calibration p = cz.apply_calibration p) ∧
    ((ct.apply_calibration p).1.1 = p.get_uncal_preds ∧ (ct.apply_calibration p).2 = ct ∧
      ((ct.apply_calibration p).2).apply_calibration p = ct.apply_calibration p) ∧
    ((ce.apply_calibration p).1.1 = p.get_uncal_preds ∧ (ce.apply_calibration p).2 = ce ∧
      ((ce.apply_calibration p).2).apply_calibration p = ce.apply_calibration p) :=
  ⟨⟨rfl, rfl, rfl⟩, ⟨rfl, rfl, rfl⟩, ⟨rfl, rfl, rfl⟩⟩

/-- C6: constructing any of the three strategies with a non-regression
dataset type fails with that strategy's configuration error.  The outcome
is the same constant error for every numeric oracle, dataset and predictor
builder, so the predictor is never consulted and no fitted state exists. -/
theorem init_rejects_non_regression (cfg : CalibratorConfig)
    (h : cfg.dataset_type ≠ "regression") (Ω : NumericOracle)
    (d : MoleculeDataset) (bp : Unit → UncertaintyPredictor) :
    ZScalingCalibrator.init Ω cfg d bp =
      Except.error "Z Score Scaling is only compatible with regression datasets." ∧
    TScalingCalibrator.init Ω cfg d bp =
      Except.error "T Score Scaling is only compatible with regression datasets." ∧
    ZelikmanCalibrator.init cfg d bp =
      Except.error "Crude Scaling is only compatible with regression datasets." := by
  refine ⟨?_, ?_, ?_⟩ <;>
    simp only [ZScalingCalibrator.init, TScalingCalibrator.init, ZelikmanCalibrator.init,
      ZScalingCalibrator.raise_argument_errors, TScalingCalibrator.raise_argument_errors,
      ZelikmanCalibrator.raise_argument_errors, if_pos h]

/-- C6 witness: the classification configuration is rejected by all three
strategies. -/
theorem init_rejects_non_regression_witness :
    classificationCfg.dataset_type ≠ "regression" ∧
    (ZScalingCalibrator.init trivialOracle classificationCfg oneTaskTargets
        (fun _ => oneTaskPredictor) =
      Except.error "Z Score Scaling is only compatible with regression datasets." ∧
    TScalingCalibrator.init trivialOracle classificationCfg oneTaskTargets
        (fun _ => oneTaskPredictor) =
      Except.error "T Score Scaling is only compatible with regression datasets." ∧
    ZelikmanCalibrator.init classificationCfg oneTaskTargets
        (fun _ => oneTaskPredictor) =
      Except.error "Crude Scaling is only compatible with regression datasets.") :=
  ⟨by decide, init_rejects_non_regression classificationCfg (by decide) trivialOracle
    oneTaskTargets (fun _ => oneTaskPredictor)⟩

/-- C2 counterexample: with `num_models = 1` and a regression dataset type,
`TScalingCalibrator.raise_argument_errors` succeeds, and construction runs
to completion: no configuration error is raised for the zero divisor
`num_models - 1`. -/
theorem tscaling_num_models_not_validated :
    singleModelCfg.num_models ≤ 1 ∧
    TScalingCalibrator.raise_argument_errors singleModelCfg = Except.ok () ∧
    (TScalingCalibrator.init trivialOracle singleModelCfg singleRowTargets
      (fun _ => singleRowPredictor)).toOption.isSome = true :=
  ⟨by decide, rfl, rfl⟩

/-- C2 amended: T-scaling construction-time validation checks only the
dataset type — it succeeds exactly on regression dataset types and is
independent of `num_models`; no `num_models > 1` precondition exists. -/
theorem tscaling_validation_only_dataset_type (cfg : CalibratorConfig) (n : ℕ) :
    (TScalingCalibrator.raise_argument_errors cfg = Except.ok () ↔
      cfg.dataset_type = "regression") ∧
    TScalingCalibrator.raise_argument_errors { cfg with num_models := n } =
      TScalingCalibrator.raise_argument_errors cfg := by
  constructor
  · by_cases h : cfg.dataset_type = "regression" <;>
      simp [TScalingCalibrator.raise_argument_errors, h]
  · rfl

/-- C10: with no calibration method and a non-regression dataset type, no
default strategy is selected: the builder fails with the unknown-strategy
error whose message interpolates Python None, and constructs nothing. -/
theorem builder_none_method_non_regression (Ω : NumericOracle)
    (um met : String) (ip : ℕ) (dt : String) (nm : ℕ)
    (d : MoleculeDataset) (bp : Unit → UncertaintyPredictor)
    (h : dt ≠ "regression") :
    uncertainty_calibrator_builder Ω none um met ip dt nm d bp =
      Except.error (unsupportedCalibratorMsg none) ∧
    HasSubstring (unsupportedCalibratorMsg none) "None" := by
  constructor
  · simp [uncertainty_calibrator_builder, h]
  · exact ⟨"Calibrator type ",
      " is not currently supported. Avalable options are: dict_keys([\x27zscaling\x27, \x27tscaling\x27, \x27zelikman_interval\x27])",
      rfl⟩

/-- C10 witness: the builder with no method and a classification dataset
type fails with the None message. -/
theorem builder_none_method_non_regression_witness :
    ("classification" ≠ "regression") ∧
    (uncertainty_calibrator_builder trivialOracle none "ensemble" "stdev" 95
        "classification" 3 oneTaskTargets (fun _ => oneTaskPredictor) =
      Except.error (unsupportedCalibratorMsg none) ∧
    HasSubstring (unsupportedCalibratorMsg none) "None") :=
  ⟨by decide, builder_none_method_non_regression trivialOracle "ensemble" "stdev" 95
    "classification" 3 oneTaskTargets (fun _ => oneTaskPredictor) (by decide)⟩

/-- C8: multiplying every raw variance of the evaluation predictor by a
positive `k` multiplies every calibrated spread entry by `sqrt k`, for the
Z-scaling and T-scaling strategies with fixed fitted scaling. -/
theorem apply_calibration_sqrt_scale (cz : ZScalingCalibrator) (ct : TScalingCalibrator)
    (p : UncertaintyPredictor) (k : ℝ) (hk : 0 < k) :
    (cz.apply_calibration (UncertaintyPredictor.scaleVars k p)).1.2 =
      matMap (fun x => Real.sqrt k * x) (cz.apply_calibration p).1.2 ∧
    (ct.apply_calibration (UncertaintyPredictor.scaleVars k p)).1.2 =
      matMap (fun x => Real.sqrt k * x) (ct.apply_calibration p).1.2 := by
  constructor
  · show matMap (fun v => Real.sqrt v * cz.scaling) (matMap (fun v => k * v) p.get_uncal_vars)
        = matMap (fun x => Real.sqrt k * x)
            (matMap (fun v => Real.sqrt v * cz.scaling) p.get_uncal_vars)
    rw [matMap_matMap, matMap_matMap]
    refine congrArg (fun f => matMap f p.get_uncal_vars) (funext fun v => ?_)
    rw [Real.sqrt_mul hk.le]
    ring
  · show matMap (fun v => Real.sqrt (v / ((ct.num_models : ℝ) - 1)) * ct.scaling)
          (matMap (fun v => k * v) p.get_uncal_vars)
        = matMap (fun x => Real.sqrt k * x)
            (matMap (fun v => Real.sqrt (v / ((ct.num_models : ℝ) - 1)) * ct.scaling)
              p.get_uncal_vars)
    rw [matMap_matMap, matMap_matMap]
    refine congrArg (fun f => matMap f p.get_uncal_vars) (funext fun v => ?_)
    rw [mul_div_assoc, Real.sqrt_mul hk.le]
    ring

/-- C8 witness: concrete calibrators and predictor with k = 4. -/
theorem apply_calibration_sqrt_scale_witness :
    0 < (4 : ℝ) ∧
    ((zFittedOne.apply_calibration (UncertaintyPredictor.scaleVars 4 evalPredictorOne)).1.2 =
      matMap (fun x => Real.sqrt 4 * x) (zFittedOne.apply_calibration evalPredictorOne).1.2 ∧
    (tFittedOne.apply_calibration (UncertaintyPredictor.scaleVars 4 evalPredictorOne)).1.2 =
      matMap (fun x => Real.sqrt 4 * x) (tFittedOne.apply_calibration evalPredictorOne).1.2) :=
  ⟨by norm_num, apply_calibration_sqrt_scale zFittedOne tFittedOne evalPredictorOne 4 (by norm_num)⟩

/-- C1 (code bug): on a two-task calibration set the Z-scaling and
T-scaling fits fail inside fmin — the per-task NLL objective passed to the
scalar minimizer is vector-valued of length 2 — while the Zelikman fit
returns a per-task scaling with 2 entries.  The Z/T strategies never
produce a T-entry per-task scaling vector: when they do run (one task),
only the scalar `sol[0]` is stored. -/
theorem multitask_fit_fails :
    ZScalingCalibrator.calibrate trivialOracle regressionStdevCfg twoTaskPredictor
        twoTaskTargets.targets =
      Except.error "ValueError: setting an array element with a sequence" ∧
    TScalingCalibrator.calibrate trivialOracle regressionStdevCfg twoTaskPredictor
        twoTaskTargets.targets =
      Except.error "ValueError: setting an array element with a sequence" ∧
    (ZelikmanCalibrator.calibrate regressionStdevCfg twoTaskPredictor
        twoTaskTargets.targets).toOption.map List.length = some 2 :=
  ⟨rfl, rfl, rfl⟩

/-- C5: for the same calibration data and optimizer, fitting with the
`interval` metric stores exactly the `stdev`-mode scale multiplied by the
Gaussian quantile `sqrt 2 * erfinv(p/100)` (Z-scaling), respectively by the
Student-t quantile `t_ppf((p/100 + 1)/2, num_models - 1)` (T-scaling). -/
theorem interval_scaling_is_quantile_multiple (Ω : NumericOracle)
    (cfg : CalibratorConfig) (pred : UncertaintyPredictor) (tg : Mat) (s u : ℝ) :
    (ZScalingCalibrator.calibrate Ω { cfg with regression_calibrator_metric := "stdev" }
        pred tg = Except.ok s →
      ZScalingCalibrator.calibrate Ω { cfg with regression_calibrator_metric := "interval" }
        pred tg =
        Except.ok (s * (Real.sqrt 2 * Ω.erfinv ((cfg.interval_percentile : ℝ) / 100)))) ∧
    (TScalingCalibrator.calibrate Ω { cfg with regression_calibrator_metric := "stdev" }
        pred tg = Except.ok u →
      TScalingCalibrator.calibrate Ω { cfg with regression_calibrator_metric := "interval" }
        pred tg =
        Except.ok (u * Ω.tPpf (((cfg.interval_percentile : ℝ) / 100 + 1) / 2)
          ((cfg.num_models : ℝ) - 1))) := by
  constructor
  · intro h
    simp only [ZScalingCalibrator.calibrate] at h ⊢
    cases hfm : fminRun Ω (ZScalingCalibrator.objective
        (matZip (fun p t => p - t) pred.get_uncal_preds tg) pred.get_uncal_vars)
        (npStdAxis0 (matZip (fun e v => e / Real.sqrt v)
          (matZip (fun p t => p - t) pred.get_uncal_preds tg) pred.get_uncal_vars)) with
    | error e =>
      rw [hfm] at h
      simp at h
    | ok sol =>
      rw [hfm] at h
      simp at h
      subst h
      exact congrArg Except.ok (by ring)
  · intro h
    simp only [TScalingCalibrator.calibrate] at h ⊢
    cases hfm : fminRun Ω (TScalingCalibrator.objective Ω cfg.num_models
        (matZip (fun p t => p - t) pred.get_uncal_preds tg)
        (matMap (fun v => Real.sqrt (v / ((cfg.num_models : ℝ) - 1))) pred.get_uncal_vars))
        (npStdAxis0 (matZip (fun e se => e / se)
          (matZip (fun p t => p - t) pred.get_uncal_preds tg)
          (matMap (fun v => Real.sqrt (v / ((cfg.num_models : ℝ) - 1))) pred.get_uncal_vars))) with
    | error e =>
      rw [hfm] at h
      simp at h
    | ok sol =>
      rw [hfm] at h
      simp at h
      subst h
      exact congrArg Except.ok (by ring)

/-- C5 witness: a one-task calibration set on which both fits succeed with
stdev-mode scale 2. -/
theorem interval_scaling_is_quantile_multiple_witness :
    (ZScalingCalibrator.calibrate twoOracle
        { regressionStdevCfg with regression_calibrator_metric := "stdev" }
        singleRowPredictor singleRowTargets.targets = Except.ok 2 ∧
      ZScalingCalibrator.calibrate twoOracle
        { regressionStdevCfg with regression_calibrator_metric := "interval" }
        singleRowPredictor singleRowTargets.targets =
        Except.ok (2 * (Real.sqrt 2 *
          twoOracle.erfinv ((regressionStdevCfg.interval_percentile : ℝ) / 100)))) ∧
    (TScalingCalibrator.calibrate twoOracle
        { regressionStdevCfg with regression_calibrator_metric := "stdev" }
        singleRowPredictor singleRowTargets.targets = Except.ok 2 ∧
      TScalingCalibrator.calibrate twoOracle
        { regressionStdevCfg with regression_calibrator_metric := "interval" }
        singleRowPredictor singleRowTargets.targets =
        Except.ok (2 * twoOracle.tPpf (((regressionStdevCfg.interval_percentile : ℝ) / 100 + 1) / 2)
          ((regressionStdevCfg.num_models : ℝ) - 1))) :=
  ⟨⟨rfl, (interval_scaling_is_quantile_multiple twoOracle regressionStdevCfg
      singleRowPredictor singleRowTargets.targets 2 2).1 rfl⟩,
   ⟨rfl, (interval_scaling_is_quantile_multiple twoOracle regressionStdevCfg
      singleRowPredictor singleRowTargets.targets 2 2).2 rfl⟩⟩

theorem mem_of_mem_zipWith {α β γ : Type} {f : α → β → γ} :
    ∀ {as : List α} {bs : List β} {y : γ}, y ∈ List.zipWith f as bs →
      ∃ a ∈ as, ∃ b ∈ bs, y = f a b := by
  intro as
  induction as with
  | nil => intro bs y hy; simp at hy
  | cons a as ih =>
    intro bs y hy
    cases bs with
    | nil => simp at hy
    | cons b bs =>
      simp only [List.zipWith_cons_cons, List.mem_cons] at hy
      rcases hy with rfl | hy
      · exact ⟨a, by simp, b, by simp, rfl⟩
      · obtain ⟨a2, ha, b2, hb, rfl⟩ := ih hy
        exact ⟨a2, by simp [ha], b2, by simp [hb], rfl⟩

theorem mem_of_mem_transposeMat :
    ∀ {m : Mat} {col : List ℝ}, col ∈ transposeMat m → ∀ {x : ℝ}, x ∈ col →
      ∃ row ∈ m, x ∈ row := by
  intro m
  induction m with
  | nil => intro col hc; simp [transposeMat] at hc
  | cons r rs ih =>
    intro col hc x hx
    cases rs with
    | nil =>
      simp only [transposeMat, List.mem_map] at hc
      obtain ⟨y, hy, rfl⟩ := hc
      simp only [List.mem_singleton] at hx
      subst hx
      exact ⟨r, by simp, hy⟩
    | cons r2 rs2 =>
      rw [show transposeMat (r :: r2 :: rs2) =
          List.zipWith (fun x col => x :: col) r (transposeMat (r2 :: rs2)) from rfl] at hc
      obtain ⟨a, ha, c, hcmem, rfl⟩ := mem_of_mem_zipWith hc
      rcases List.mem_cons.mp hx with rfl | hx2
      · exact ⟨r, by simp, ha⟩
      · obtain ⟨row, hrow, hxrow⟩ := ih hcmem hx2
        exact ⟨row, by simp [hrow], hxrow⟩

theorem npPercentile_nonneg (xs : List ℝ) (q : ℝ) (hxs : ∀ x ∈ xs, 0 ≤ x) :
    0 ≤ npPercentile xs q := by
  have hgetD : ∀ (i : ℕ) (d : ℝ), 0 ≤ d →
      0 ≤ (List.insertionSort (fun a b => a ≤ b) xs).getD i d := by
    intro i d hd
    by_cases hi : i < (List.insertionSort (fun a b => a ≤ b) xs).length
    · rw [List.getD_eq_getElem _ d hi]
      exact hxs _ ((List.perm_insertionSort _ xs).mem_iff.mp (List.getElem_mem hi))
    · rw [List.getD_eq_default _ d (le_of_not_lt hi)]
      exact hd
  simp only [npPercentile]
  have hlo := hgetD (Int.toNat ⌊q / 100 * ((xs.length : ℝ) - 1)⌋) 0 le_rfl
  have hhi := hgetD (Int.toNat ⌊q / 100 * ((xs.length : ℝ) - 1)⌋ + 1) _ hlo
  have hf0 : 0 ≤ Int.fract (q / 100 * ((xs.length : ℝ) - 1)) := Int.fract_nonneg _
  have hf1 : Int.fract (q / 100 * ((xs.length : ℝ) - 1)) ≤ 1 :=
    le_of_lt (Int.fract_lt_one _)
  nlinarith [mul_nonneg (sub_nonneg.mpr hf1) hlo, mul_nonneg hf0 hhi]

theorem zelikman_scaling_entries_nonneg (cfg : CalibratorConfig)
    (pred : UncertaintyPredictor) (tg : Mat) (l : List ℝ)
    (h : ZelikmanCalibrator.calibrate cfg pred tg = Except.ok l) :
    ∀ s ∈ l, 0 ≤ s := by
  simp only [ZelikmanCalibrator.calibrate, Except.ok.injEq] at h
  subst h
  intro s hs
  obtain ⟨col, hcol, rfl⟩ := List.mem_map.mp hs
  apply npPercentile_nonneg
  intro x hx
  obtain ⟨row, hrow, hxrow⟩ := mem_of_mem_transposeMat hcol hx
  obtain ⟨erow, he, vrow, hvr, rfl⟩ := mem_of_mem_zipWith hrow
  obtain ⟨d, hd, v, hv2, rfl⟩ := mem_of_mem_zipWith hxrow
  exact div_nonneg (abs_nonneg d) (Real.sqrt_nonneg v)

/-- C3 counterexample: the Gaussian NLL objective is even in the scale, so
an optimizer returning -1 is as valid as one returning +1; the resulting
fitted Z-scaling calibrator, applied to an evaluation predictor whose raw
variances are all nonnegative, returns a negative calibrated spread
entry. -/
theorem zscaling_negative_spread :
    ZScalingCalibrator.objective [[1], [-1]] [[1], [1]] [-1] =
      ZScalingCalibrator.objective [[1], [-1]] [[1], [1]] [1] ∧
    ZScalingCalibrator.init negOracle regressionStdevCfg oneTaskTargets
      (fun _ => oneTaskPredictor) = Except.ok negFitted ∧
    MatEntriesNonneg evalPredictorOne.get_uncal_vars ∧
    (negFitted.apply_calibration evalPredictorOne).1.2 = [[-1]] ∧
    ¬ (0 ≤ (-1 : ℝ)) := by
  refine ⟨?_, rfl, ?_, ?_, by norm_num⟩
  · simp [ZScalingCalibrator.objective, axisSum0, zipWith3]
  · unfold MatEntriesNonneg
    intro row hrow x hx
    simp only [evalPredictorOne, List.mem_singleton] at hrow
    subst hrow
    simp only [List.mem_singleton] at hx
    subst hx
    norm_num
  · simp [ZScalingCalibrator.apply_calibration, matMap, negFitted, evalPredictorOne,
      Real.sqrt_one]

/-- C3 amended: the calibrated spread is entrywise nonnegative for any
fitted Zelikman calibrator (its scaling entries are percentiles of
nonnegative absolute z-scores), and for the Z- and T-scaling strategies
whenever the stored scaling is nonnegative — which the code does not
guarantee, since the sign of the optimizer solution is unconstrained. -/
theorem calibrated_spread_nonneg (cz : ZScalingCalibrator) (ct : TScalingCalibrator)
    (ce : ZelikmanCalibrator) (p : UncertaintyPredictor)
    (cfg : CalibratorConfig) (calPred : UncertaintyPredictor) (tg : Mat)
    (_hv : MatEntriesNonneg p.get_uncal_vars)
    (hz : 0 ≤ cz.scaling) (ht : 0 ≤ ct.scaling)
    (hfit : ZelikmanCalibrator.calibrate cfg calPred tg = Except.ok ce.scaling) :
    MatEntriesNonneg (cz.apply_calibration p).1.2 ∧
    MatEntriesNonneg (ct.apply_calibration p).1.2 ∧
    MatEntriesNonneg (ce.apply_calibration p).1.2 := by
  refine ⟨?_, ?_, ?_⟩
  · unfold MatEntriesNonneg
    intro row hrow x hx
    simp only [ZScalingCalibrator.apply_calibration, matMap, List.mem_map] at hrow
    obtain ⟨r0, hr0, rfl⟩ := hrow
    obtain ⟨v, hvm, rfl⟩ := List.mem_map.mp hx
    exact mul_nonneg (Real.sqrt_nonneg v) hz
  · unfold MatEntriesNonneg
    intro row hrow x hx
    simp only [TScalingCalibrator.apply_calibration, matMap, List.mem_map] at hrow
    obtain ⟨r0, hr0, rfl⟩ := hrow
    obtain ⟨v, hvm, rfl⟩ := List.mem_map.mp hx
    exact mul_nonneg (Real.sqrt_nonneg _) ht
  · unfold MatEntriesNonneg
    intro row hrow x hx
    simp only [ZelikmanCalibrator.apply_calibration, List.mem_map] at hrow
    obtain ⟨r0, hr0, rfl⟩ := hrow
    obtain ⟨v, hvm, s, hsm, rfl⟩ := mem_of_mem_zipWith hx
    exact mul_nonneg (Real.sqrt_nonneg v)
      (zelikman_scaling_entries_nonneg cfg calPred tg ce.scaling hfit s hsm)

theorem zelikman_fit_singleRow :
    ZelikmanCalibrator.calibrate regressionStdevCfg singleRowPredictor
      singleRowTargets.targets = Except.ok [1] := by
  simp only [ZelikmanCalibrator.calibrate, singleRowPredictor, singleRowTargets,
    regressionStdevCfg, matZip, List.zipWith, transposeMat, List.map, npPercentile,
    Except.ok.injEq]
  norm_num [List.insertionSort, List.orderedInsert, Real.sqrt_one]

/-- C3 witness for the amended theorem: concrete fitted calibrators with
nonnegative scalings and a Zelikman calibrator fitted on a one-example
calibration set. -/
theorem calibrated_spread_nonneg_witness :
    (MatEntriesNonneg evalPredictorOne.get_uncal_vars ∧ 0 ≤ zFittedOne.scaling ∧
      0 ≤ tFittedOne.scaling ∧
      ZelikmanCalibrator.calibrate regressionStdevCfg singleRowPredictor
        singleRowTargets.targets = Except.ok zelFittedOne.scaling) ∧
    (MatEntriesNonneg (zFittedOne.apply_calibration evalPredictorOne).1.2 ∧
      MatEntriesNonneg (tFittedOne.apply_calibration evalPredictorOne).1.2 ∧
      MatEntriesNonneg (zelFittedOne.apply_calibration evalPredictorOne).1.2) :=
  have hv : MatEntriesNonneg evalPredictorOne.get_uncal_vars := by
    unfold MatEntriesNonneg
    intro row hrow x hx
    simp only [evalPredictorOne, List.mem_singleton] at hrow
    subst hrow
    simp only [List.mem_singleton] at hx
    subst hx
    norm_num
  ⟨⟨hv, zero_le_one, zero_le_one, zelikman_fit_singleRow⟩,
    calibrated_spread_nonneg zFittedOne tFittedOne zelFittedOne evalPredictorOne
      regressionStdevCfg singleRowPredictor singleRowTargets.targets hv zero_le_one
      zero_le_one zelikman_fit_singleRow⟩

/-- C9: an unknown strategy name makes the builder fail with the
NotImplementedError message, which names the offending value and lists the
three supported strategy names; with no strategy name and a regression
dataset type, the builder behaves exactly as if zscaling had been requested
when the metric is stdev, and as zelikman_interval otherwise. -/
theorem builder_registry_and_defaults (Ω : NumericOracle) (um : String) (ip : ℕ)
    (nm : ℕ) (d : MoleculeDataset) (bp : Unit → UncertaintyPredictor) :
    (∀ (m met dt : String),
      m ∉ (["zscaling", "tscaling", "zelikman_interval"] : List String) →
      uncertainty_calibrator_builder Ω (some m) um met ip dt nm d bp =
        Except.error (unsupportedCalibratorMsg (some m)) ∧
      HasSubstring (unsupportedCalibratorMsg (some m)) m ∧
      HasSubstring (unsupportedCalibratorMsg (some m)) "zscaling" ∧
      HasSubstring (unsupportedCalibratorMsg (some m)) "tscaling" ∧
      HasSubstring (unsupportedCalibratorMsg (some m)) "zelikman_interval") ∧
    (uncertainty_calibrator_builder Ω none um "stdev" ip "regression" nm d bp =
      uncertainty_calibrator_builder Ω (some "zscaling") um "stdev" ip "regression" nm d bp) ∧
    (∀ met : String, met ≠ "stdev" →
      uncertainty_calibrator_builder Ω none um met ip "regression" nm d bp =
        uncertainty_calibrator_builder Ω (some "zelikman_interval") um met ip "regression"
          nm d bp) := by
  refine ⟨?_, rfl, ?_⟩
  · intro m met dt hm
    have h1 : m ≠ "zscaling" := by rintro rfl; simp at hm
    have h2 : m ≠ "tscaling" := by rintro rfl; simp at hm
    have h3 : m ≠ "zelikman_interval" := by rintro rfl; simp at hm
    refine ⟨?_, ?_, ?_, ?_, ?_⟩
    · simp [uncertainty_calibrator_builder, h1, h2, h3]
    · exact ⟨"Calibrator type ",
        " is not currently supported. Avalable options are: dict_keys([\x27zscaling\x27, \x27tscaling\x27, \x27zelikman_interval\x27])",
        rfl⟩
    · refine ⟨"Calibrator type " ++ m ++
        " is not currently supported. Avalable options are: dict_keys([\x27",
        "\x27, \x27tscaling\x27, \x27zelikman_interval\x27])", ?_⟩
      simp only [unsupportedCalibratorMsg, pyShowOpt, String.append_assoc]
      congr 1
    · refine ⟨"Calibrator type " ++ m ++
        " is not currently supported. Avalable options are: dict_keys([\x27zscaling\x27, \x27",
        "\x27, \x27zelikman_interval\x27])", ?_⟩
      simp only [unsupportedCalibratorMsg, pyShowOpt, String.append_assoc]
      congr 1
    · refine ⟨"Calibrator type " ++ m ++
        " is not currently supported. Avalable options are: dict_keys([\x27zscaling\x27, \x27tscaling\x27, \x27",
        "\x27])", ?_⟩
      simp only [unsupportedCalibratorMsg, pyShowOpt, String.append_assoc]
      congr 1
  · intro met hmet
    simp [uncertainty_calibrator_builder, hmet]

/-- C9 witness: the unsupported name not_a_method and the interval
metric default. -/
theorem builder_registry_and_defaults_witness :
    (("not_a_method" : String) ∉ (["zscaling", "tscaling", "zelikman_interval"] : List String) ∧
      uncertainty_calibrator_builder trivialOracle (some "not_a_method") "ensemble" "stdev" 95
        "regression" 3 oneTaskTargets (fun _ => oneTaskPredictor) =
        Except.error (unsupportedCalibratorMsg (some "not_a_method")) ∧
      HasSubstring (unsupportedCalibratorMsg (some "not_a_method")) "not_a_method") ∧
    (("interval" : String) ≠ "stdev" ∧
      uncertainty_calibrator_builder trivialOracle none "ensemble" "interval" 95 "regression" 3
        oneTaskTargets (fun _ => oneTaskPredictor) =
        uncertainty_calibrator_builder trivialOracle (some "zelikman_interval") "ensemble"
          "interval" 95 "regression" 3 oneTaskTargets (fun _ => oneTaskPredictor)) :=
  have h := builder_registry_and_defaults trivialOracle "ensemble" 95 3 oneTaskTargets
    (fun _ => oneTaskPredictor)
  have h1 := h.1 "not_a_method" "stdev" "regression" (by decide)
  ⟨⟨by decide, h1.1, h1.2.1⟩, ⟨by decide, h.2.2 "interval" (by decide)⟩⟩

theorem getD_zipWith (f : ℝ → ℝ → ℝ) :
    ∀ (as bs : List ℝ) (t : ℕ), t < as.length → t < bs.length →
      (List.zipWith f as bs).getD t 0 = f (as.getD t 0) (bs.getD t 0) := by
  intro as
  induction as with
  | nil => intro bs t h1 h2; simp at h1
  | cons a as ih =>
    intro bs t h1 h2
    cases bs with
    | nil => simp at h2
    | cons b bs =>
      cases t with
      | zero => rfl
      | succ t =>
        simp only [List.zipWith_cons_cons, List.getD_cons_succ]
        exact ih bs t (Nat.lt_of_succ_lt_succ h1) (Nat.lt_of_succ_lt_succ h2)

theorem column_matZip (f : ℝ → ℝ → ℝ) :
    ∀ (a b : Mat) (t : ℕ), (∀ ra ∈ a, t < ra.length) → (∀ rb ∈ b, t < rb.length) →
      column (matZip f a b) t = List.zipWith f (column a t) (column b t) := by
  intro a
  induction a with
  | nil => intro b t _ _; rfl
  | cons ra a ih =>
    intro b t ha hb
    cases b with
    | nil => rfl
    | cons rb b =>
      simp only [matZip, List.zipWith_cons_cons, column, List.map_cons]
      rw [getD_zipWith f ra rb t (ha ra (by simp)) (hb rb (by simp))]
      have htail := ih b t (fun r hr => ha r (by simp [hr])) (fun r hr => hb r (by simp [hr]))
      simp only [matZip, column] at htail
      rw [htail]

theorem zipWith_abs_div (as bs cs : List ℝ) :
    List.zipWith (fun d v => |d| / Real.sqrt v)
        (List.zipWith (fun p t => p - t) as bs) cs =
      zipWith3 (fun p y v => |p - y| / Real.sqrt v) as bs cs := by
  induction as generalizing bs cs with
  | nil => cases bs <;> cases cs <;> rfl
  | cons a as ih =>
    cases bs with
    | nil => cases cs <;> rfl
    | cons b bs =>
      cases cs with
      | nil => rfl
      | cons c cs =>
        simp only [List.zipWith_cons_cons, zipWith3]
        rw [ih]

theorem transposeMat_eq_columns (T : ℕ) :
    ∀ (m : Mat), m ≠ [] → (∀ r ∈ m, r.length = T) →
      transposeMat m = (List.range T).map (fun t => column m t) := by
  intro m
  induction m with
  | nil => intro h _; exact absurd rfl h
  | cons r rs ih =>
    intro _ hlen
    cases rs with
    | nil =>
      have hr : r.length = T := hlen r (by simp)
      simp only [transposeMat]
      refine List.ext_getElem (by simp [hr]) ?_
      intro i h1 h2
      have hir : i < r.length := by simpa using h1
      simp only [List.getElem_map, List.getElem_range, column, List.map_cons, List.map_nil]
      rw [List.getD_eq_getElem r 0 hir]
    | cons r2 rs2 =>
      have hlen2 : ∀ x ∈ (r2 :: rs2 : Mat), x.length = T := fun x hx => hlen x (by simp [hx])
      have ihh := ih (by simp) hlen2
      rw [show transposeMat (r :: r2 :: rs2) =
          List.zipWith (fun x col => x :: col) r (transposeMat (r2 :: rs2)) from rfl, ihh]
      have hrT : r.length = T := hlen r (by simp)
      refine List.ext_getElem (by simp [hrT]) ?_
      intro i h1 h2
      have hiT : i < T := by simpa using h2
      have hir : i < r.length := by omega
      simp only [List.getElem_zipWith, List.getElem_map, List.getElem_range, column,
        List.map_cons]
      rw [List.getD_eq_getElem r 0 hir]

/-- C4: `ZelikmanCalibrator.calibrate` is independent of the calibration
metric; it stores, per task, the `interval_percentile`-th empirical
percentile over the calibration examples of
|prediction − target| / sqrt(raw variance); and the label of any
constructed Zelikman calibrator embeds the percentile used. -/
theorem zelikman_calibrate_per_task_percentile (cfg : CalibratorConfig) (m : String)
    (pred : UncertaintyPredictor) (tg : Mat) (T : ℕ)
    (hne : pred.get_uncal_preds ≠ [])
    (hp : ∀ r ∈ pred.get_uncal_preds, r.length = T)
    (hv : ∀ r ∈ pred.get_uncal_vars, r.length = T)
    (ht : ∀ r ∈ tg, r.length = T)
    (hNv : pred.get_uncal_vars.length = pred.get_uncal_preds.length)
    (hNt : tg.length = pred.get_uncal_preds.length) :
    ZelikmanCalibrator.calibrate { cfg with regression_calibrator_metric := m } pred tg =
      ZelikmanCalibrator.calibrate cfg pred tg ∧
    ZelikmanCalibrator.calibrate cfg pred tg =
      Except.ok ((List.range T).map (fun t =>
        npPercentile
          (zipWith3 (fun p y v => |p - y| / Real.sqrt v)
            (column pred.get_uncal_preds t) (column tg t) (column pred.get_uncal_vars t))
          (cfg.interval_percentile : ℝ))) ∧
    (∀ (d : MoleculeDataset) (bp : Unit → UncertaintyPredictor) (c : ZelikmanCalibrator),
      ZelikmanCalibrator.init cfg d bp = Except.ok c →
      ∃ s1 s2, c.label = s1 ++ toString cfg.interval_percentile ++ s2) := by
  refine ⟨rfl, ?_, ?_⟩
  · have habs_len : ∀ row ∈ matZip (fun d v => |d| / Real.sqrt v)
        (matZip (fun p t => p - t) pred.get_uncal_preds tg) pred.get_uncal_vars,
        row.length = T := by
      intro row hrow
      obtain ⟨erow, he, vrow, hvr, rfl⟩ := mem_of_mem_zipWith hrow
      obtain ⟨prow, hpr, trow, htr, rfl⟩ := mem_of_mem_zipWith he
      simp [hp prow hpr, ht trow htr, hv vrow hvr]
    have hNpos : 0 < pred.get_uncal_preds.length := List.length_pos.mpr hne
    have habs_ne : matZip (fun d v => |d| / Real.sqrt v)
        (matZip (fun p t => p - t) pred.get_uncal_preds tg) pred.get_uncal_vars ≠ [] := by
      have hl : (matZip (fun d v => |d| / Real.sqrt v)
          (matZip (fun p t => p - t) pred.get_uncal_preds tg) pred.get_uncal_vars).length
          = pred.get_uncal_preds.length := by
        simp [matZip, hNv, hNt]
      exact List.ne_nil_of_length_pos (by omega)
    simp only [ZelikmanCalibrator.calibrate, Except.ok.injEq]
    rw [transposeMat_eq_columns T _ habs_ne habs_len, List.map_map]
    refine List.map_congr_left ?_
    intro t hts
    have htT : t < T := List.mem_range.mp hts
    simp only [Function.comp_apply]
    congr 1
    have hcol1 : column (matZip (fun p t => p - t) pred.get_uncal_preds tg) t =
        List.zipWith (fun p t => p - t) (column pred.get_uncal_preds t) (column tg t) :=
      column_matZip _ _ _ t (fun r hr => by rw [hp r hr]; exact htT)
        (fun r hr => by rw [ht r hr]; exact htT)
    have hcol2 : column (matZip (fun d v => |d| / Real.sqrt v)
        (matZip (fun p t => p - t) pred.get_uncal_preds tg) pred.get_uncal_vars) t =
        List.zipWith (fun d v => |d| / Real.sqrt v)
          (column (matZip (fun p t => p - t) pred.get_uncal_preds tg) t)
          (column pred.get_uncal_vars t) := by
      refine column_matZip _ _ _ t ?_ (fun r hr => by rw [hv r hr]; exact htT)
      intro r hr
      obtain ⟨prow, hpr, trow, htr, rfl⟩ := mem_of_mem_zipWith hr
      rw [List.length_zipWith, hp prow hpr, ht trow htr]
      simpa using htT
    rw [hcol2, hcol1, zipWith_abs_div]
  · intro d bp c hinit
    simp only [ZelikmanCalibrator.init] at hinit
    cases hra : ZelikmanCalibrator.raise_argument_errors cfg with
    | error e => rw [hra] at hinit; simp at hinit
    | ok u =>
      rw [hra] at hinit
      simp only [ZelikmanCalibrator.calibrate, Except.ok.injEq] at hinit
      subst hinit
      exact ⟨cfg.uncertainty_method ++ "_zelikman_", "interval", by
        simp [String.append_assoc]⟩

/-- C4 witness: a single-task, single-example calibration set. -/
theorem zelikman_calibrate_per_task_percentile_witness :
    (singleRowPredictor.get_uncal_preds ≠ [] ∧
      (∀ r ∈ singleRowPredictor.get_uncal_preds, r.length = 1) ∧
      (∀ r ∈ singleRowPredictor.get_uncal_vars, r.length = 1) ∧
      (∀ r ∈ singleRowTargets.targets, r.length = 1) ∧
      singleRowPredictor.get_uncal_vars.length = singleRowPredictor.get_uncal_preds.length ∧
      singleRowTargets.targets.length = singleRowPredictor.get_uncal_preds.length) ∧
    (ZelikmanCalibrator.calibrate
        { regressionStdevCfg with regression_calibrator_metric := "interval" }
        singleRowPredictor singleRowTargets.targets =
      ZelikmanCalibrator.calibrate regressionStdevCfg singleRowPredictor
        singleRowTargets.targets ∧
    ZelikmanCalibrator.calibrate regressionStdevCfg singleRowPredictor
        singleRowTargets.targets =
      Except.ok ((List.range 1).map (fun t =>
        npPercentile
          (zipWith3 (fun p y v => |p - y| / Real.sqrt v)
            (column singleRowPredictor.get_uncal_preds t) (column singleRowTargets.targets t)
            (column singleRowPredictor.get_uncal_vars t))
          (regressionStdevCfg.interval_percentile : ℝ))) ∧
    (∀ (d : MoleculeDataset) (bp : Unit → UncertaintyPredictor) (c : ZelikmanCalibrator),
      ZelikmanCalibrator.init regressionStdevCfg d bp = Except.ok c →
      ∃ s1 s2, c.label = s1 ++ toString regressionStdevCfg.interval_percentile ++ s2)) :=
  ⟨⟨by simp [singleRowPredictor], by simp [singleRowPredictor], by simp [singleRowPredictor],
    by simp [singleRowTargets], by simp [singleRowPredictor], rfl⟩,
   zelikman_calibrate_per_task_percentile regressionStdevCfg "interval" singleRowPredictor
     singleRowTargets.targets 1 (by simp [singleRowPredictor]) (by simp [singleRowPredictor])
     (by simp [singleRowPredictor]) (by simp [singleRowTargets]) (by simp [singleRowPredictor])
     rfl⟩

end
